import Mathlib

/-!
Verification of the zigpy-zigate correlation/retry engine (`zigpy_zigate/api.py`)
against its natural-language specification.

The engine is shallowly embedded: the four waiter tables become association
lists from 8/16-bit numeric keys (modelled as `Nat`) to single-resolution
futures, `ZiGate.data_received` becomes a pure state transformer that can
fault (Python's `asyncio.InvalidStateError` raised by `Future.set_result` on
an already-resolved future becomes an `Except.error` carrying the state at the
moment of the raise), and `ZiGate.command` becomes a fuel-indexed loop driven
by an oracle that tells each stage-await whether it timed out or which frame
resolved it.  The byte-level codec (`t.serialize`/`t.deserialize`) is an
external collaborator: frames enter the model already decoded as `List Nat`
field vectors, exactly the shape `data_received` works with after its
`t.deserialize` call.
-/

/-- An `asyncio.Future` restricted to what the engine uses: it is either
pending or resolved with a `(data, lqi)` payload.  `set_result` on a resolved
future raises `InvalidStateError`. -/
inductive Fut where
  | pending : Fut
  | resolved : List Nat → Nat → Fut
deriving DecidableEq, Repr

/-- A Python dict keyed by a small integer, holding futures: one of the four
waiter tables of `ZiGate`.  Keys are unique as long as all writes go through
`tset`. -/
abbrev Table := List (Nat × Fut)

/-- Dict lookup: `d[k]` / `d.get(k)`. -/
def tget : Table → Nat → Option Fut
  | [], _ => none
  | p :: rest, k => if p.1 = k then some p.2 else tget rest k

/-- Dict membership test: `k in d`. -/
def tcontains (t : Table) (k : Nat) : Bool :=
  (tget t k).isSome

/-- Dict assignment `d[k] = v`: replaces the entry if the key is present,
appends otherwise. -/
def tset : Table → Nat → Fut → Table
  | [], k, v => [(k, v)]
  | p :: rest, k, v => if p.1 = k then (k, v) :: rest else p :: tset rest k v

/-- Dict deletion `del d[k]` / successful `d.pop(k)`. -/
def terase (t : Table) (k : Nat) : Table :=
  t.filter (fun p => p.1 != k)

/-- Python subscript `d[i]` on a decoded field vector.  A successfully
decoded frame always has the indexed fields, so the out-of-range default is
never reached on real frames. -/
def pyidx (d : List Nat) (i : Nat) : Nat :=
  d.getD i 0

/-- `Future.set_result`: succeeds exactly once; a second call raises
`InvalidStateError` (modelled as `Except.error`). -/
def set_result (f : Fut) (d : List Nat) (l : Nat) : Except Unit Fut :=
  match f with
  | Fut.pending => Except.ok (Fut.resolved d l)
  | Fut.resolved _ _ => Except.error ()

/-- The key set of the `RESPONSES` dict of `api.py`: the static table of
known response identifiers (the field-type tuples themselves belong to the
out-of-scope codec). -/
def RESPONSES : List Nat :=
  [0x004D, 0x8008, 0x8000, 0x8001, 0x8002, 0x0302, 0x8006, 0x8007, 0x8009,
   0x8010, 0x8011, 0x8012, 0x8017, 0x8024, 0x8035, 0x8048, 0x8701, 0x8702,
   0x8806, 0x9999]

/-- The four waiter tables owned by a `ZiGate` instance:
`_awaiting` (named responses, keyed by response id),
`_status_awaiting` (status waiters, keyed by command id),
`_status_datasent_awaiting` and `_status_ack_awaiting` (keyed by APS sqn). -/
structure DState where
  awaiting : Table
  status_awaiting : Table
  status_datasent_awaiting : Table
  status_ack_awaiting : Table
deriving DecidableEq, Repr

/-- Outcome of one `data_received` call: the updated tables, plus the
argument triple passed to `handle_callback` when dispatch reached it
(`none` when the frame was dropped as unknown). -/
structure DispatchResult where
  st : DState
  callbackArgs : Option (Nat × List Nat × Nat)
deriving DecidableEq, Repr

/-- The table mutations of the `cmd == 0x8000` block: pop the status waiter
for the echoed command id, and create the data-sent and ack waiters when the
frame carries a sqn. -/
def statusTables (st : DState) (data : List Nat) : DState :=
  if pyidx data 3 ≠ 0 then
    { st with
      status_awaiting := terase st.status_awaiting (pyidx data 2),
      status_datasent_awaiting :=
        tset st.status_datasent_awaiting (pyidx data 4) Fut.pending,
      status_ack_awaiting :=
        tset st.status_ack_awaiting (pyidx data 4) Fut.pending }
  else
    { st with status_awaiting := terase st.status_awaiting (pyidx data 2) }

/-- The `cmd == 0x8000` block of `data_received`: decode the status frame,
pop the status waiter for the echoed command id if present, create the
data-sent and ack waiters when a sqn is present, then resolve the popped
future.  A `set_result` raise surfaces as `Except.error` with the tables as
already mutated. -/
def dispatchStatus (st : DState) (data : List Nat) (lqi : Nat) :
    Except DState DState :=
  if tcontains st.status_awaiting (pyidx data 2) then
    match set_result ((tget st.status_awaiting (pyidx data 2)).getD Fut.pending)
        data lqi with
    | Except.ok _ => Except.ok (statusTables st data)
    | Except.error _ => Except.error (statusTables st data)
  else Except.ok st

/-- The `cmd in [0x8012, 0x8702]` block of `data_received`: resolve the
data-sent waiter for the embedded sqn in place — the entry is NOT removed
from the table, so a duplicate confirmation hits an already-resolved future
and `set_result` raises `InvalidStateError`. -/
def dispatchDatasent (st : DState) (data : List Nat) (lqi : Nat) :
    Except DState DState :=
  if tcontains st.status_datasent_awaiting (pyidx data 4) then
    match set_result
        ((tget st.status_datasent_awaiting (pyidx data 4)).getD Fut.pending)
        data lqi with
    | Except.ok fut2 =>
        Except.ok { st with
          status_datasent_awaiting :=
            tset st.status_datasent_awaiting (pyidx data 4) fut2 }
    | Except.error _ => Except.error st
  else Except.ok st

/-- The `cmd == 0x8011` block of `data_received`: resolve the ack waiter for
the embedded sqn in place; like the data-sent case the entry stays in the
table, so a duplicate ack raises. -/
def dispatchAck (st : DState) (data : List Nat) (lqi : Nat) :
    Except DState DState :=
  if tcontains st.status_ack_awaiting (pyidx data 4) then
    match set_result
        ((tget st.status_ack_awaiting (pyidx data 4)).getD Fut.pending)
        data lqi with
    | Except.ok fut2 =>
        Except.ok { st with
          status_ack_awaiting :=
            tset st.status_ack_awaiting (pyidx data 4) fut2 }
    | Except.error _ => Except.error st
  else Except.ok st

/-- The `cmd in self._awaiting` block of `data_received`: pop and resolve
the named-response waiter keyed by the frame id. -/
def dispatchResponse (st : DState) (cmd : Nat) (data : List Nat) (lqi : Nat) :
    Except DState DState :=
  if tcontains st.awaiting cmd then
    match set_result ((tget st.awaiting cmd).getD Fut.pending) data lqi with
    | Except.ok _ => Except.ok { st with awaiting := terase st.awaiting cmd }
    | Except.error _ => Except.error { st with awaiting := terase st.awaiting cmd }
  else Except.ok st

/-- Python exception propagation for one dispatch block: if the preceding
block raised, the rest of `data_received` does not run. -/
def chainE {g : Type} (e : Except DState DState) (k : DState -> Except DState g) :
    Except DState g :=
  match e with
  | Except.error f => Except.error f
  | Except.ok st => k st

/-- `ZiGate.data_received(cmd, data, lqi)`, with `data` already decoded by the
external codec (`t.deserialize(data, RESPONSES[cmd])`).  Field reads `data[i]`
are `pyidx` since a successfully decoded frame always has the indexed
fields.  The four guarded blocks run in source order; the `cmd == 0x9999`
block only logs.  A raise of `InvalidStateError` out of a `set_result` call
aborts the remaining dispatch steps — later waiter lookups and the
`handle_callback` invocation do not run — and is returned as `Except.error`
carrying the tables as already mutated at that point, exactly as the Python
state is left. -/
def data_received (st : DState) (cmd : Nat) (data : List Nat) (lqi : Nat) :
    Except DState DispatchResult :=
  if cmd ∉ RESPONSES then
    -- "Received unhandled response": logged and dropped.
    Except.ok ⟨st, none⟩
  else
    chainE (if cmd = 0x8000 then dispatchStatus st data lqi else Except.ok st)
      fun st =>
    chainE (if cmd = 0x8012 ∨ cmd = 0x8702 then dispatchDatasent st data lqi
            else Except.ok st) fun st =>
    chainE (if cmd = 0x8011 then dispatchAck st data lqi else Except.ok st)
      fun st =>
    chainE (dispatchResponse st cmd data lqi) fun st =>
    Except.ok ⟨st, some (cmd, data, lqi)⟩

/-- `ZiGate.handle_callback`: runs the application's
`zigate_callback_handler`; any exception it raises is caught and logged
(`LOGGER.exception`), never propagated. -/
def handle_callback (handler : Nat → List Nat → Nat → Except String Unit)
    (cmd : Nat) (data : List Nat) (lqi : Nat) : Unit :=
  match handler cmd data lqi with
  | Except.ok _ => ()
  | Except.error _ => ()

/-- `data_received` including the final `handle_callback` call with a concrete
application handler attached, mirroring how the dispatcher hands every decoded
frame to the network-management layer. -/
def data_received_app (handler : Nat → List Nat → Nat → Except String Unit)
    (st : DState) (cmd : Nat) (data : List Nat) (lqi : Nat) :
    Except DState DispatchResult :=
  match data_received st cmd data lqi with
  | Except.error f => Except.error f
  | Except.ok r =>
    match r.callbackArgs with
    | some (c, d, l) =>
        let _ := handle_callback handler c d l
        Except.ok r
    | none => Except.ok r

deriving instance DecidableEq for Except

/-- `SUCCESS = 0x00`. -/
def SUCCESS : Nat := 0

/-- Full engine state threaded through `ZiGate.command`: whether the transport
is present (`self._uart is not None`), whether the serialization lock
`self._lock` is held, the four waiter tables, and a count of
`self._uart.send` calls (observable side effect). -/
structure CmdState where
  uart : Bool
  lockHeld : Bool
  tables : DState
  sends : Nat
deriving DecidableEq, Repr

/-- What one `asyncio.wait_for(fut, timeout)` stage-await yields: either the
timeout fires, or dispatch resolved the future with a decoded frame
`(data, lqi)`. -/
inductive AwaitOutcome where
  | timeout : AwaitOutcome
  | frame : List Nat → Nat → AwaitOutcome
deriving DecidableEq, Repr

/-- The environment for one iteration of the retry loop: the outcome of each
of the four stage-awaits, supplied by the frame-arrival side. -/
structure AttemptOracle where
  statusA : AwaitOutcome
  datasentA : AwaitOutcome
  ackA : AwaitOutcome
  responseA : AwaitOutcome
deriving DecidableEq, Repr

/-- The error exits of `ZiGate.command`: `CommandError("API is not running")`,
`NoStatusError`, `NoResponseError`, and a `KeyError` escaping from a
`dict.pop` on an absent key (the only raise in `command` that does NOT
release the lock first, since it is not routed through an explicit
`self._lock.release()`). -/
inductive CmdError where
  | commandError : CmdError
  | noStatus : CmdError
  | noResponse : CmdError
  | keyError : CmdError
deriving DecidableEq, Repr

/-- Result of a whole `command` call: the returned `(data, lqi)` pair (or
`None` when no stage was awaited), or the raised error, plus the final
engine state. -/
structure CmdOutcome where
  res : Except CmdError (Option (List Nat × Nat))
  st : CmdState
deriving DecidableEq, Repr

/-- Control-flow outcome of one stage inside a loop iteration: `raised`
leaves the loop with an exception, `contin` is Python `continue` (retry),
`next` falls through to the following stage carrying the current
`result`, `status`, `sqn` and state. -/
inductive StageRes where
  | raised : CmdError → CmdState → StageRes
  | contin : Option (List Nat × Nat) → Nat → Option Nat → CmdState → StageRes
  | next : Option (List Nat × Nat) → Nat → Option Nat → CmdState → StageRes
deriving DecidableEq, Repr

/-- Outcome of one whole loop-body iteration: an exception, or "go back to
the `while tries > 0` test" (both Python `continue` and falling off the end
of the body land there). -/
inductive StepRes where
  | raised : CmdError → CmdState → StepRes
  | proceed : Option (List Nat × Nat) → Nat → Option Nat → CmdState → StepRes
deriving DecidableEq, Repr

/-- The table mutations `data_received` performs at the instant it resolves
the status future `command` is awaiting (api.py, the `cmd == 0x8000` branch):
it pops the status waiter — necessarily at key `cmdId`, because the future
registered there is the one whose resolution resumes this await — and, when
the frame reports a sqn, registers fresh pending data-sent and ack waiters
under it. -/
def statusResolveEffects (cmdId : Nat) (d : List Nat) (tbls : DState) : DState :=
  let tbls := { tbls with status_awaiting := terase tbls.status_awaiting cmdId }
  if pyidx d 3 ≠ 0 then
    { tbls with
      status_datasent_awaiting := tset tbls.status_datasent_awaiting (pyidx d 4) Fut.pending,
      status_ack_awaiting := tset tbls.status_ack_awaiting (pyidx d 4) Fut.pending }
  else tbls

/-- Stage 1 of `command`: `await asyncio.wait_for(status_fut, timeout)` plus
its `except asyncio.TimeoutError` handler.  On timeout the waiters
registered this attempt are removed and the attempt either retries
(`tries > 0`) or raises `NoStatusError` after releasing the lock.  On
resolution the status code is read, and if the frame carries a sqn the two
companion waiters just created by dispatch are looked up and whichever of
them the caller did not ask to wait for is deleted. -/
def statusStage (cmdId : Nat) (wait_response : Option Nat)
    (wait_for_datasent wait_for_ack : Bool) (o : AwaitOutcome)
    (triesLeft : Nat) (result0 : Option (List Nat × Nat)) (sqn0 : Option Nat)
    (st : CmdState) : StageRes :=
  match o with
  | AwaitOutcome.timeout =>
      let tbls := st.tables
      let tbls :=
        if tcontains tbls.status_awaiting cmdId then
          { tbls with status_awaiting := terase tbls.status_awaiting cmdId }
        else tbls
      let tbls :=
        match wait_response with
        | some r =>
            if tcontains tbls.awaiting r then
              { tbls with awaiting := terase tbls.awaiting r }
            else tbls
        | none => tbls
      let st := { st with tables := tbls }
      if triesLeft > 0 then StageRes.contin result0 SUCCESS sqn0 st
      else StageRes.raised CmdError.noStatus { st with lockHeld := false }
  | AwaitOutcome.frame d l =>
      let tbls := statusResolveEffects cmdId d st.tables
      let status := pyidx d 0
      if pyidx d 3 ≠ 0 then
        let q := pyidx d 4
        let tbls :=
          if ¬ wait_for_datasent then
            { tbls with status_datasent_awaiting := terase tbls.status_datasent_awaiting q }
          else tbls
        let tbls :=
          if ¬ wait_for_ack then
            { tbls with status_ack_awaiting := terase tbls.status_ack_awaiting q }
          else tbls
        StageRes.next (some (d, l)) status (some q) { st with tables := tbls }
      else
        StageRes.next (some (d, l)) status sqn0 { st with tables := tbls }

/-- Stage 2 of `command`: awaiting the data-sent confirmation for sqn `q`.
On resolution the frame was delivered by dispatch through key `q` (it
resolved the future stored there in place), then `command` pops that entry
and reassigns `sqn` and `status` from the confirmation frame.  On timeout
the entry is deleted and the attempt retries or raises `NoStatusError`. -/
def datasentStage (o : AwaitOutcome) (triesLeft : Nat)
    (result0 : Option (List Nat × Nat)) (status0 : Nat) (q : Nat)
    (st : CmdState) : StageRes :=
  match o with
  | AwaitOutcome.timeout =>
      let tbls := st.tables
      let tbls :=
        if tcontains tbls.status_datasent_awaiting q then
          { tbls with status_datasent_awaiting := terase tbls.status_datasent_awaiting q }
        else tbls
      let st := { st with tables := tbls }
      if triesLeft > 0 then StageRes.contin result0 status0 (some q) st
      else StageRes.raised CmdError.noStatus { st with lockHeld := false }
  | AwaitOutcome.frame d l =>
      let tbls :=
        { st.tables with
          status_datasent_awaiting := tset st.tables.status_datasent_awaiting q (Fut.resolved d l) }
      let tbls :=
        { tbls with status_datasent_awaiting := terase tbls.status_datasent_awaiting q }
      StageRes.next (some (d, l)) (pyidx d 0) (some (pyidx d 4)) { st with tables := tbls }

/-- Stage 3 of `command`: awaiting the remote ack for the future captured at
key `qAwait` (the sqn observed in the status frame), while
`self._status_ack_awaiting.pop(sqn)` uses the CURRENT value of the `sqn`
variable `qCur`, which stage 2 may have reassigned from the confirmation
frame.  `dict.pop` on an absent key raises `KeyError`, which is not caught
and leaves the lock held. -/
def ackStage (o : AwaitOutcome) (triesLeft : Nat)
    (result0 : Option (List Nat × Nat)) (status0 : Nat) (qAwait qCur : Nat)
    (st : CmdState) : StageRes :=
  match o with
  | AwaitOutcome.timeout =>
      let tbls := st.tables
      let tbls :=
        if tcontains tbls.status_ack_awaiting qCur then
          { tbls with status_ack_awaiting := terase tbls.status_ack_awaiting qCur }
        else tbls
      let st := { st with tables := tbls }
      if triesLeft > 0 then StageRes.contin result0 status0 (some qCur) st
      else StageRes.raised CmdError.noStatus { st with lockHeld := false }
  | AwaitOutcome.frame d l =>
      let tbls :=
        { st.tables with
          status_ack_awaiting := tset st.tables.status_ack_awaiting qAwait (Fut.resolved d l) }
      if tcontains tbls.status_ack_awaiting qCur then
        let tbls := { tbls with status_ack_awaiting := terase tbls.status_ack_awaiting qCur }
        StageRes.next (some (d, l)) (pyidx d 0) (some (pyidx d 4)) { st with tables := tbls }
      else
        StageRes.raised CmdError.keyError { st with tables := tbls }

/-- Stage 4 of `command`: awaiting the named response `wait_response`.  On
resolution dispatch popped the `_awaiting` entry; the status variable is
deliberately NOT updated from the response frame (that line is commented out
in the source).  On timeout the entry is deleted and the attempt retries or
raises `NoResponseError`. -/
def responseStage (r : Nat) (o : AwaitOutcome) (triesLeft : Nat)
    (result0 : Option (List Nat × Nat)) (status0 : Nat) (sqn0 : Option Nat)
    (st : CmdState) : StageRes :=
  match o with
  | AwaitOutcome.timeout =>
      let tbls :=
        if tcontains st.tables.awaiting r then
          { st.tables with awaiting := terase st.tables.awaiting r }
        else st.tables
      let st := { st with tables := tbls }
      if triesLeft > 0 then StageRes.contin result0 status0 sqn0 st
      else StageRes.raised CmdError.noResponse { st with lockHeld := false }
  | AwaitOutcome.frame d l =>
      let tbls := { st.tables with awaiting := terase st.tables.awaiting r }
      StageRes.next (some (d, l)) status0 sqn0 { st with tables := tbls }

/-- One iteration of the `while tries > 0` body of `ZiGate.command`:
the transport precondition check, waiter registration, `status = SUCCESS`,
`tries -= 1`, `self._uart.send(cmd, data)`, then the four guarded
stage-awaits in order.  `triesLeft` is the value of `tries` AFTER the
decrement, which the timeout handlers consult. -/
def commandAttempt (cmdId : Nat) (wait_response : Option Nat)
    (wait_status wait_for_datasent wait_for_ack : Bool)
    (o : AttemptOracle) (triesLeft : Nat)
    (result0 : Option (List Nat × Nat)) (sqn0 : Option Nat)
    (st : CmdState) : StepRes :=
  if st.uart = false then
    -- connection was lost: release the lock and raise CommandError
    StepRes.raised CmdError.commandError { st with lockHeld := false }
  else
    let tbls := st.tables
    let tbls :=
      if wait_status then
        { tbls with status_awaiting := tset tbls.status_awaiting cmdId Fut.pending }
      else tbls
    let tbls :=
      match wait_response with
      | some r => { tbls with awaiting := tset tbls.awaiting r Fut.pending }
      | none => tbls
    let st := { st with tables := tbls, sends := st.sends + 1 }
    match (if wait_status then
        statusStage cmdId wait_response wait_for_datasent wait_for_ack
          o.statusA triesLeft result0 sqn0 st
      else StageRes.next result0 SUCCESS sqn0 st) with
    | StageRes.raised e s => StepRes.raised e s
    | StageRes.contin r s q s' => StepRes.proceed r s q s'
    | StageRes.next r1 status1 sqn1 st1 =>
      match (match sqn1 with
        | some q =>
            if status1 = SUCCESS ∧ wait_for_datasent = true then
              datasentStage o.datasentA triesLeft r1 status1 q st1
            else StageRes.next r1 status1 sqn1 st1
        | none => StageRes.next r1 status1 sqn1 st1) with
      | StageRes.raised e s => StepRes.raised e s
      | StageRes.contin r s q s' => StepRes.proceed r s q s'
      | StageRes.next r2 status2 sqn2 st2 =>
        match (match sqn2 with
          | some qCur =>
              if status2 = SUCCESS ∧ wait_for_ack = true then
                ackStage o.ackA triesLeft r2 status2 (sqn1.getD qCur) qCur st2
              else StageRes.next r2 status2 sqn2 st2
          | none => StageRes.next r2 status2 sqn2 st2) with
        | StageRes.raised e s => StepRes.raised e s
        | StageRes.contin r s q s' => StepRes.proceed r s q s'
        | StageRes.next r3 status3 sqn3 st3 =>
          match (match wait_response with
            | some resp =>
                if status3 = SUCCESS then
                  responseStage resp o.responseA triesLeft r3 status3 sqn3 st3
                else StageRes.next r3 status3 sqn3 st3
            | none => StageRes.next r3 status3 sqn3 st3) with
          | StageRes.raised e s => StepRes.raised e s
          | StageRes.contin r s q s' => StepRes.proceed r s q s'
          | StageRes.next r4 status4 sqn4 st4 => StepRes.proceed r4 status4 sqn4 st4

/-- The `while tries > 0` loop of `ZiGate.command`, with `fuel` the current
value of `tries`.  There is no `break` on success in the source: a fully
successful iteration also just falls back to the loop test.  When the test
fails the final statuses `0xA3/0xA6/0xC2` are only logged, the lock is
released and `result` is returned. -/
def commandLoop (cmdId : Nat) (wait_response : Option Nat)
    (wait_status wait_for_datasent wait_for_ack : Bool)
    (oracles : List AttemptOracle) (fuel : Nat)
    (result0 : Option (List Nat × Nat)) (status0 : Nat) (sqn0 : Option Nat)
    (st : CmdState) : CmdOutcome :=
  match fuel with
  | 0 => ⟨Except.ok result0, { st with lockHeld := false }⟩
  | Nat.succ t =>
    let o := oracles.headD ⟨AwaitOutcome.timeout, AwaitOutcome.timeout,
                            AwaitOutcome.timeout, AwaitOutcome.timeout⟩
    match commandAttempt cmdId wait_response wait_status wait_for_datasent
        wait_for_ack o t result0 sqn0 st with
    | StepRes.raised e s => ⟨Except.error e, s⟩
    | StepRes.proceed r s q st' =>
        commandLoop cmdId wait_response wait_status wait_for_datasent
          wait_for_ack oracles.tail t r s q st'

/-- `ZiGate.command(cmd, data, wait_response, wait_status, wait_for_datasent,
wait_for_ack, timeout)`: acquires the lock, sets `tries = 1`, `result = None`,
`sqn = None`, `status = 0`, and runs the retry loop.  The attempt budget is
the hardcoded `tries = 1` of the source. -/
def command (cmdId : Nat) (wait_response : Option Nat)
    (wait_status wait_for_datasent wait_for_ack : Bool)
    (oracles : List AttemptOracle) (st : CmdState) : CmdOutcome :=
  commandLoop cmdId wait_response wait_status wait_for_datasent wait_for_ack
    oracles 1 none 0 none { st with lockHeld := true }

/-- `ZiGate._reconnect_till_done`, abstracted over the success/failure of each
`asyncio.wait_for(self.reconnect(), timeout=10)` attempt (`true` = reconnect
succeeded, `false` = `TimeoutError`/`OSError`).  Returns the list of backoff
sleeps performed before success, or `none` when no attempt in the observed
trace succeeds (the loop runs on unboundedly). -/
def reconnect_till_done : List Bool → Nat → Option (List Nat)
  | [], _ => none
  | ok :: rest, attempt =>
      if ok then some []
      else
        let wait := 2 ^ min attempt 5
        (reconnect_till_done rest (attempt + 1)).map (fun ws => wait :: ws)

/-- All futures stored in a table are still pending (no resolved future
lingers). -/
def allPending (t : Table) : Bool :=
  t.all (fun p => p.2 == Fut.pending)

/-- The all-timeout attempt environment (no frame ever arrives). -/
def oracleTimeout : AttemptOracle :=
  ⟨AwaitOutcome.timeout, AwaitOutcome.timeout, AwaitOutcome.timeout, AwaitOutcome.timeout⟩

/-- Coupling between the environment and the waiter tables that holds in the
integrated system: a data-sent confirmation can only resume `command` through
the table key it was registered under, so its embedded sqn field equals the
sqn of the status frame that opened this exchange. -/
def oracleConsistent (o : AttemptOracle) : Prop :=
  match o.statusA, o.datasentA with
  | AwaitOutcome.frame ds _, AwaitOutcome.frame dd _ => pyidx dd 4 = pyidx ds 4
  | _, _ => True

theorem tget_terase_self (t : Table) (k : Nat) : tget (terase t k) k = none := by
  induction t with
  | nil => rfl
  | cons p rest ih =>
    simp only [terase, List.filter_cons] at *
    by_cases h : p.1 = k
    · simp [h, ih]
    · simp [h, tget, ih]

theorem tcontains_terase_self (t : Table) (k : Nat) :
    tcontains (terase t k) k = false := by
  simp [tcontains, tget_terase_self]

theorem tget_tset_self (t : Table) (k : Nat) (v : Fut) :
    tget (tset t k v) k = some v := by
  induction t with
  | nil => simp [tset, tget]
  | cons p rest ih =>
    by_cases h : p.1 = k
    · simp [tset, h, tget]
    · simp [tset, h, tget, ih]

theorem tcontains_tset_self (t : Table) (k : Nat) (v : Fut) :
    tcontains (tset t k v) k = true := by
  simp [tcontains, tget_tset_self]

theorem tget_pending_of_allPending (t : Table) (k : Nat) (f : Fut)
    (hall : allPending t = true) (hget : tget t k = some f) : f = Fut.pending := by
  induction t with
  | nil => simp [tget] at hget
  | cons p rest ih =>
    simp only [allPending, List.all_cons, Bool.and_eq_true, beq_iff_eq] at hall
    simp only [tget] at hget
    by_cases h : p.1 = k
    · simp only [h, if_pos rfl] at hget
      rw [← Option.some_inj.mp hget]; exact hall.1
    · exact ih (by simpa [allPending] using hall.2) (by simpa [h] using hget)

theorem tgetD_pending (t : Table) (k : Nat) (hall : allPending t = true) :
    (tget t k).getD Fut.pending = Fut.pending := by
  cases hg : tget t k with
  | none => rfl
  | some f => simpa using tget_pending_of_allPending t k f hall hg

theorem statusStage_raised0 (cmdId : Nat) (wr : Option Nat) (wfd wfa : Bool)
    (o : AwaitOutcome) (r0 : Option (List Nat × Nat)) (sqn0 : Option Nat)
    (st : CmdState) (e : CmdError) (s : CmdState)
    (h : statusStage cmdId wr wfd wfa o 0 r0 sqn0 st = StageRes.raised e s) :
    s.lockHeld = false := by
  cases o with
  | timeout =>
    simp only [statusStage, gt_iff_lt, lt_self_iff_false, if_false] at h
    injection h with h1 h2
    exact h2 ▸ rfl
  | frame d l =>
    by_cases h3 : pyidx d 3 = 0 <;> simp [statusStage, h3] at h

theorem datasentStage_raised0 (o : AwaitOutcome) (r0 : Option (List Nat × Nat))
    (s0 q : Nat) (st : CmdState) (e : CmdError) (s : CmdState)
    (h : datasentStage o 0 r0 s0 q st = StageRes.raised e s) :
    s.lockHeld = false := by
  cases o with
  | timeout =>
    simp only [datasentStage, gt_iff_lt, lt_self_iff_false, if_false] at h
    injection h with h1 h2
    exact h2 ▸ rfl
  | frame d l => simp [datasentStage] at h

theorem ackStage_raised0 (o : AwaitOutcome) (r0 : Option (List Nat × Nat))
    (s0 q : Nat) (st : CmdState) (e : CmdError) (s : CmdState)
    (h : ackStage o 0 r0 s0 q q st = StageRes.raised e s) :
    s.lockHeld = false := by
  cases o with
  | timeout =>
    simp only [ackStage, gt_iff_lt, lt_self_iff_false, if_false] at h
    injection h with h1 h2
    exact h2 ▸ rfl
  | frame d l => simp [ackStage, tcontains_tset_self] at h

theorem responseStage_raised0 (r : Nat) (o : AwaitOutcome)
    (r0 : Option (List Nat × Nat)) (s0 : Nat) (sqn0 : Option Nat)
    (st : CmdState) (e : CmdError) (s : CmdState)
    (h : responseStage r o 0 r0 s0 sqn0 st = StageRes.raised e s) :
    s.lockHeld = false := by
  cases o with
  | timeout =>
    simp only [responseStage, gt_iff_lt, lt_self_iff_false, if_false] at h
    injection h with h1 h2
    exact h2 ▸ rfl
  | frame d l => simp [responseStage] at h

theorem statusStage_next_sqn (cmdId : Nat) (wr : Option Nat) (wfd wfa : Bool)
    (o : AwaitOutcome) (tri : Nat) (r0 : Option (List Nat × Nat)) (st : CmdState)
    (r1 : Option (List Nat × Nat)) (s1 : Nat) (q1 : Option Nat) (st1 : CmdState)
    (h : statusStage cmdId wr wfd wfa o tri r0 none st = StageRes.next r1 s1 q1 st1) :
    q1 = none ∨ ∃ d l, o = AwaitOutcome.frame d l ∧ q1 = some (pyidx d 4) := by
  cases o with
  | timeout =>
    by_cases ht : tri > 0 <;> simp [statusStage, ht] at h
  | frame d l =>
    by_cases h3 : pyidx d 3 = 0
    · left
      simp [statusStage, h3] at h
      exact h.2.2.1.symm
    · right
      refine ⟨d, l, rfl, ?_⟩
      simp [statusStage, h3] at h
      exact h.2.2.1.symm

theorem datasentStage_next_sqn (o : AwaitOutcome) (tri : Nat)
    (r0 : Option (List Nat × Nat)) (s0 q : Nat) (st : CmdState)
    (r2 : Option (List Nat × Nat)) (s2 : Nat) (q2 : Option Nat) (st2 : CmdState)
    (h : datasentStage o tri r0 s0 q st = StageRes.next r2 s2 q2 st2) :
    ∃ d l, o = AwaitOutcome.frame d l ∧ q2 = some (pyidx d 4) := by
  cases o with
  | timeout => by_cases ht : tri > 0 <;> simp [datasentStage, ht] at h
  | frame d l =>
    refine ⟨d, l, rfl, ?_⟩
    simp [datasentStage] at h
    exact h.2.2.1.symm

theorem commandAttempt_raised_lock (cmdId : Nat) (wr : Option Nat)
    (ws wfd wfa : Bool) (o : AttemptOracle) (r0 : Option (List Nat × Nat))
    (st : CmdState) (hc : oracleConsistent o) (e : CmdError) (s : CmdState)
    (h : commandAttempt cmdId wr ws wfd wfa o 0 r0 none st = StepRes.raised e s) :
    s.lockHeld = false := by
  unfold commandAttempt at h
  by_cases hu : st.uart = false
  · rw [if_pos hu] at h
    injection h with h1 h2
    exact h2 ▸ rfl
  · rw [if_neg hu] at h
    cases ws
    · -- wait_status = false: only the response stage can raise
      simp only [Bool.false_eq_true, if_false] at h
      cases wr with
      | none => simp at h
      | some resp =>
        try simp only [] at h
        split at h
        · rename_i e4 s4 heq4
          injection h with h1 h2
          exact h2 ▸ responseStage_raised0 _ _ _ _ _ _ _ _ heq4
        · simp at h
        · simp at h
    · -- wait_status = true
      simp only [if_true] at h
      split at h
      · -- status stage raised
        rename_i e1 s1 heq1
        injection h with h1 h2
        exact h2 ▸ statusStage_raised0 _ _ _ _ _ _ _ _ _ _ heq1
      · -- status stage contin: impossible at triesLeft = 0 but proceed ≠ raised anyway
        simp at h
      · -- status stage next
        rename_i r1 s1 q1 st1 heq1
        cases q1 with
        | none =>
          -- no sqn: data-sent and ack stages are skipped
          try simp only [] at h
          cases wr with
          | none => simp at h
          | some resp =>
            try simp only [] at h
            by_cases hg4 : s1 = SUCCESS
            · rw [if_pos hg4] at h
              split at h
              · rename_i e4 s4 heq4
                injection h with h1 h2
                exact h2 ▸ responseStage_raised0 _ _ _ _ _ _ _ _ heq4
              · simp at h
              · simp at h
            · rw [if_neg hg4] at h
              simp at h
        | some q =>
          -- the status frame carried a sqn: q = pyidx ds 4 for the status frame ds
          have hq_ds : ∃ ds ls, o.statusA = AwaitOutcome.frame ds ls ∧ q = pyidx ds 4 := by
            rcases statusStage_next_sqn _ _ _ _ _ _ _ _ _ _ _ _ heq1 with hq1 | ⟨ds, ls, hos, hq1⟩
            · exact absurd hq1 (by simp)
            · exact ⟨ds, ls, hos, by injection hq1⟩
          try simp only [] at h
          by_cases hg2 : s1 = SUCCESS ∧ wfd = true
          · rw [if_pos hg2] at h
            split at h
            · -- data-sent stage raised
              rename_i e2 s2 heq2
              injection h with h1 h2
              exact h2 ▸ datasentStage_raised0 _ _ _ _ _ _ _ heq2
            · simp at h
            · -- data-sent stage next
              rename_i r2 s2 q2 st2 heq2
              obtain ⟨dd, ld, hod, hq2⟩ := datasentStage_next_sqn _ _ _ _ _ _ _ _ _ _ heq2
              subst hq2
              -- consistency: the confirmation frame echoes the status frame sqn
              have hkey : pyidx dd 4 = q := by
                obtain ⟨ds, ls, hos, hqds⟩ := hq_ds
                unfold oracleConsistent at hc
                rw [hos, hod] at hc
                omega
              rw [hkey] at h
              simp only [Option.getD] at h
              by_cases hg3 : s2 = SUCCESS ∧ wfa = true
              · rw [if_pos hg3] at h
                split at h
                · rename_i e3 s3 heq3
                  injection h with h1 h2
                  exact h2 ▸ ackStage_raised0 _ _ _ _ _ _ _ heq3
                · simp at h
                · rename_i r3 s3 q3 st3 heq3
                  try simp only [] at h
                  cases wr with
                  | none => simp at h
                  | some resp =>
                    try simp only [] at h
                    by_cases hg4 : s3 = SUCCESS
                    · rw [if_pos hg4] at h
                      split at h
                      · rename_i e4 s4 heq4
                        injection h with h1 h2
                        exact h2 ▸ responseStage_raised0 _ _ _ _ _ _ _ _ heq4
                      · simp at h
                      · simp at h
                    · rw [if_neg hg4] at h
                      simp at h
              · rw [if_neg hg3] at h
                try simp only [] at h
                cases wr with
                | none => simp at h
                | some resp =>
                  try simp only [] at h
                  by_cases hg4 : s2 = SUCCESS
                  · rw [if_pos hg4] at h
                    split at h
                    · rename_i e4 s4 heq4
                      injection h with h1 h2
                      exact h2 ▸ responseStage_raised0 _ _ _ _ _ _ _ _ heq4
                    · simp at h
                    · simp at h
                  · rw [if_neg hg4] at h
                    simp at h
          · rw [if_neg hg2] at h
            try simp only [] at h
            by_cases hg3 : s1 = SUCCESS ∧ wfa = true
            · rw [if_pos hg3] at h
              split at h
              · rename_i e3 s3 heq3
                injection h with h1 h2
                exact h2 ▸ ackStage_raised0 _ _ _ _ _ _ _ heq3
              · simp at h
              · rename_i r3 s3 q3 st3 heq3
                try simp only [] at h
                cases wr with
                | none => simp at h
                | some resp =>
                  try simp only [] at h
                  by_cases hg4 : s3 = SUCCESS
                  · rw [if_pos hg4] at h
                    split at h
                    · rename_i e4 s4 heq4
                      injection h with h1 h2
                      exact h2 ▸ responseStage_raised0 _ _ _ _ _ _ _ _ heq4
                    · simp at h
                    · simp at h
                  · rw [if_neg hg4] at h
                    simp at h
            · rw [if_neg hg3] at h
              try simp only [] at h
              cases wr with
              | none => simp at h
              | some resp =>
                try simp only [] at h
                by_cases hg4 : s1 = SUCCESS
                · rw [if_pos hg4] at h
                  split at h
                  · rename_i e4 s4 heq4
                    injection h with h1 h2
                    exact h2 ▸ responseStage_raised0 _ _ _ _ _ _ _ _ heq4
                  · simp at h
                  · simp at h
                · rw [if_neg hg4] at h
                  simp at h

/-- The `commandAttempt` invocation `command` performs (lock just taken,
`tries` already decremented to 0, `result = None`, `sqn = None`), exposed as
a definitional equation of `command`. -/
theorem command_unfold (cmdId : Nat) (wr : Option Nat) (ws wfd wfa : Bool)
    (oracles : List AttemptOracle) (st : CmdState) :
    command cmdId wr ws wfd wfa oracles st =
      match commandAttempt cmdId wr ws wfd wfa (oracles.headD oracleTimeout) 0
          none none { st with lockHeld := true } with
      | StepRes.raised e s => ⟨Except.error e, s⟩
      | StepRes.proceed r s2 q st2 =>
          commandLoop cmdId wr ws wfd wfa oracles.tail 0 r s2 q st2 := rfl

theorem chainE_ok {g : Type} (e : Except DState DState) (k : DState → Except DState g)
    (r : g) (h : chainE e k = Except.ok r) :
    ∃ st, e = Except.ok st ∧ k st = Except.ok r := by
  cases e with
  | error f => simp [chainE] at h
  | ok st => exact ⟨st, rfl, h⟩

theorem chainE_congr {g : Type} (e : Except DState DState)
    (k : DState → Except DState g) (st : DState) (h : e = Except.ok st) :
    chainE e k = k st := by
  rw [h]; rfl

theorem statusTables_cleared (st : DState) (d : List Nat) :
    tcontains (statusTables st d).status_awaiting (pyidx d 2) = false ∧
      (statusTables st d).awaiting = st.awaiting := by
  unfold statusTables
  by_cases h3 : pyidx d 3 ≠ 0
  · rw [if_pos h3]
    exact ⟨tcontains_terase_self _ _, rfl⟩
  · rw [if_neg h3]
    exact ⟨tcontains_terase_self _ _, rfl⟩

theorem statusTables_sqn (st : DState) (d : List Nat) (h3 : pyidx d 3 ≠ 0) :
    tcontains (statusTables st d).status_datasent_awaiting (pyidx d 4) = true ∧
      tcontains (statusTables st d).status_ack_awaiting (pyidx d 4) = true := by
  unfold statusTables
  rw [if_pos h3]
  exact ⟨tcontains_tset_self _ _ _, tcontains_tset_self _ _ _⟩

theorem dispatchStatus_ok (st : DState) (d : List Nat) (l : Nat) (st' : DState)
    (h : dispatchStatus st d l = Except.ok st') :
    tcontains st'.status_awaiting (pyidx d 2) = false ∧
      st'.awaiting = st.awaiting := by
  unfold dispatchStatus at h
  by_cases hm : tcontains st.status_awaiting (pyidx d 2) = true
  · rw [if_pos hm] at h
    cases hfut : (tget st.status_awaiting (pyidx d 2)).getD Fut.pending with
    | pending =>
      rw [hfut] at h
      simp only [set_result] at h
      injection h with h'
      subst h'
      exact statusTables_cleared st d
    | resolved dd ll =>
      rw [hfut] at h
      simp [set_result] at h
  · rw [if_neg hm] at h
    injection h with h'
    subst h'
    exact ⟨by simpa using hm, rfl⟩

theorem dispatchStatus_ok_sqn (st : DState) (d : List Nat) (l : Nat) (st' : DState)
    (hm : tcontains st.status_awaiting (pyidx d 2) = true) (h3 : pyidx d 3 ≠ 0)
    (h : dispatchStatus st d l = Except.ok st') :
    tcontains st'.status_datasent_awaiting (pyidx d 4) = true ∧
      tcontains st'.status_ack_awaiting (pyidx d 4) = true := by
  unfold dispatchStatus at h
  rw [if_pos hm] at h
  cases hfut : (tget st.status_awaiting (pyidx d 2)).getD Fut.pending with
  | pending =>
    rw [hfut] at h
    simp only [set_result] at h
    injection h with h'
    subst h'
    exact statusTables_sqn st d h3
  | resolved dd ll =>
    rw [hfut] at h
    simp [set_result] at h

theorem dispatchStatus_skip (st : DState) (d : List Nat) (l : Nat)
    (hm : ¬ tcontains st.status_awaiting (pyidx d 2) = true) :
    dispatchStatus st d l = Except.ok st := by
  unfold dispatchStatus
  rw [if_neg hm]

theorem dispatchDatasent_ok (st : DState) (d : List Nat) (l : Nat) (st' : DState)
    (h : dispatchDatasent st d l = Except.ok st') :
    st'.awaiting = st.awaiting ∧ st'.status_awaiting = st.status_awaiting ∧
      st'.status_ack_awaiting = st.status_ack_awaiting := by
  unfold dispatchDatasent at h
  by_cases hm : tcontains st.status_datasent_awaiting (pyidx d 4) = true
  · rw [if_pos hm] at h
    cases hfut : (tget st.status_datasent_awaiting (pyidx d 4)).getD Fut.pending with
    | pending =>
      rw [hfut] at h
      simp only [set_result] at h
      injection h with h'
      subst h'
      exact ⟨rfl, rfl, rfl⟩
    | resolved dd ll =>
      rw [hfut] at h
      simp [set_result] at h
  · rw [if_neg hm] at h
    injection h with h'
    subst h'
    exact ⟨rfl, rfl, rfl⟩

theorem dispatchAck_ok (st : DState) (d : List Nat) (l : Nat) (st' : DState)
    (h : dispatchAck st d l = Except.ok st') :
    st'.awaiting = st.awaiting ∧ st'.status_awaiting = st.status_awaiting ∧
      st'.status_datasent_awaiting = st.status_datasent_awaiting := by
  unfold dispatchAck at h
  by_cases hm : tcontains st.status_ack_awaiting (pyidx d 4) = true
  · rw [if_pos hm] at h
    cases hfut : (tget st.status_ack_awaiting (pyidx d 4)).getD Fut.pending with
    | pending =>
      rw [hfut] at h
      simp only [set_result] at h
      injection h with h'
      subst h'
      exact ⟨rfl, rfl, rfl⟩
    | resolved dd ll =>
      rw [hfut] at h
      simp [set_result] at h
  · rw [if_neg hm] at h
    injection h with h'
    subst h'
    exact ⟨rfl, rfl, rfl⟩

theorem dispatchResponse_ok (st : DState) (cmd : Nat) (d : List Nat) (l : Nat)
    (st' : DState) (h : dispatchResponse st cmd d l = Except.ok st') :
    tcontains st'.awaiting cmd = false ∧
      st'.status_awaiting = st.status_awaiting ∧
      st'.status_datasent_awaiting = st.status_datasent_awaiting ∧
      st'.status_ack_awaiting = st.status_ack_awaiting := by
  unfold dispatchResponse at h
  by_cases hm : tcontains st.awaiting cmd = true
  · rw [if_pos hm] at h
    cases hfut : (tget st.awaiting cmd).getD Fut.pending with
    | pending =>
      rw [hfut] at h
      simp only [set_result] at h
      injection h with h'
      subst h'
      exact ⟨tcontains_terase_self _ _, rfl, rfl, rfl⟩
    | resolved dd ll =>
      rw [hfut] at h
      simp [set_result] at h
  · rw [if_neg hm] at h
    injection h with h'
    subst h'
    exact ⟨by simpa using hm, rfl, rfl, rfl⟩

theorem dispatchResponse_skip (st : DState) (cmd : Nat) (d : List Nat) (l : Nat)
    (hm : ¬ tcontains st.awaiting cmd = true) :
    dispatchResponse st cmd d l = Except.ok st := by
  unfold dispatchResponse
  rw [if_neg hm]

theorem dispatchStatus_total (st : DState) (d : List Nat) (l : Nat)
    (hall : allPending st.status_awaiting = true) :
    ∃ st', dispatchStatus st d l = Except.ok st' := by
  unfold dispatchStatus
  by_cases hm : tcontains st.status_awaiting (pyidx d 2) = true
  · rw [if_pos hm, tgetD_pending _ _ hall]
    exact ⟨_, rfl⟩
  · rw [if_neg hm]
    exact ⟨_, rfl⟩

theorem dispatchDatasent_total (st : DState) (d : List Nat) (l : Nat)
    (hall : allPending st.status_datasent_awaiting = true) :
    ∃ st', dispatchDatasent st d l = Except.ok st' := by
  unfold dispatchDatasent
  by_cases hm : tcontains st.status_datasent_awaiting (pyidx d 4) = true
  · rw [if_pos hm, tgetD_pending _ _ hall]
    exact ⟨_, rfl⟩
  · rw [if_neg hm]
    exact ⟨_, rfl⟩

theorem dispatchAck_total (st : DState) (d : List Nat) (l : Nat)
    (hall : allPending st.status_ack_awaiting = true) :
    ∃ st', dispatchAck st d l = Except.ok st' := by
  unfold dispatchAck
  by_cases hm : tcontains st.status_ack_awaiting (pyidx d 4) = true
  · rw [if_pos hm, tgetD_pending _ _ hall]
    exact ⟨_, rfl⟩
  · rw [if_neg hm]
    exact ⟨_, rfl⟩

theorem dispatchResponse_total (st : DState) (cmd : Nat) (d : List Nat) (l : Nat)
    (hall : allPending st.awaiting = true) :
    ∃ st', dispatchResponse st cmd d l = Except.ok st' := by
  unfold dispatchResponse
  by_cases hm : tcontains st.awaiting cmd = true
  · rw [if_pos hm, tgetD_pending _ _ hall]
    exact ⟨_, rfl⟩
  · rw [if_neg hm]
    exact ⟨_, rfl⟩

theorem chainE_okk {g : Type} (st : DState) (k : DState → Except DState g) :
    chainE (Except.ok st) k = k st := rfl

/-- C3 amended: a status frame with a non-zero sqn-present field creates both
the data-sent waiter and the ack waiter for that sqn — but only when a status
waiter for the echoed command id exists at dispatch time; an unsolicited
status frame creates nothing (see the counterexample). -/
theorem status_frame_creates_sqn_waiters (st : DState) (d : List Nat) (l : Nat)
    (r : DispatchResult)
    (hw : tcontains st.status_awaiting (pyidx d 2) = true)
    (h3 : pyidx d 3 ≠ 0)
    (h : data_received st 0x8000 d l = Except.ok r) :
    tcontains r.st.status_datasent_awaiting (pyidx d 4) = true ∧
      tcontains r.st.status_ack_awaiting (pyidx d 4) = true := by
  have hn1 : ¬((0x8000 : Nat) = 0x8012 ∨ (0x8000 : Nat) = 0x8702) := by decide
  have hn2 : ¬((0x8000 : Nat) = 0x8011) := by decide
  unfold data_received at h
  rw [if_neg (by decide), if_pos rfl] at h
  simp only [hn1, hn2, if_false, chainE_okk] at h
  obtain ⟨st1, hst1, h⟩ := chainE_ok _ _ _ h
  obtain ⟨st4, hst4, h⟩ := chainE_ok _ _ _ h
  injection h with h'
  rw [← h']
  obtain ⟨hds, hak⟩ := dispatchStatus_ok_sqn _ _ _ _ hw h3 hst1
  obtain ⟨-, -, hp2, hp3⟩ := dispatchResponse_ok _ _ _ _ _ hst4
  exact ⟨by rw [hp2]; exact hds, by rw [hp3]; exact hak⟩

/-- C8 amended: an unknown frame id is logged and dropped with no table
change and no callback; a known frame whose dispatch completes without a
fault is forwarded to the unsolicited-event callback exactly once — but a
dispatch fault (duplicate data-sent/ack resolution) skips the callback (see
the counterexample). -/
theorem dispatch_drop_and_callback :
    (∀ st cmd d l, cmd ∉ RESPONSES →
        data_received st cmd d l = Except.ok ⟨st, none⟩) ∧
    (∀ st cmd d l r, cmd ∈ RESPONSES → data_received st cmd d l = Except.ok r →
        r.callbackArgs = some (cmd, d, l)) := by
  constructor
  · intro st cmd d l hmem
    unfold data_received
    rw [if_pos hmem]
  · intro st cmd d l r hmem h
    unfold data_received at h
    rw [if_neg (not_not_intro hmem)] at h
    obtain ⟨st1, hst1, h⟩ := chainE_ok _ _ _ h
    obtain ⟨st2, hst2, h⟩ := chainE_ok _ _ _ h
    obtain ⟨st3, hst3, h⟩ := chainE_ok _ _ _ h
    obtain ⟨st4, hst4, h⟩ := chainE_ok _ _ _ h
    injection h with h'
    rw [← h']

/-- C2 amended: for status frames and named responses the waiter is popped
when resolved, so delivering the same frame twice resolves it at most once
and the second delivery is a no-op returning the state unchanged; data-sent
(0x8012/0x8702) and ack (0x8011) frames leave the resolved future in the
table, so their redelivery faults instead (see the counterexample). -/
theorem dispatch_redelivery_noop (st : DState) (cmd : Nat) (d : List Nat) (l : Nat)
    (r : DispatchResult) (hmem : cmd ∈ RESPONSES)
    (hne1 : cmd ≠ 0x8012) (hne2 : cmd ≠ 0x8702) (hne3 : cmd ≠ 0x8011)
    (h : data_received st cmd d l = Except.ok r) :
    data_received r.st cmd d l = Except.ok ⟨r.st, some (cmd, d, l)⟩ := by
  have hstep2 : ¬(cmd = 0x8012 ∨ cmd = 0x8702) := by tauto
  unfold data_received at h
  rw [if_neg (not_not_intro hmem)] at h
  simp only [hstep2, hne3, if_false, chainE_okk] at h
  by_cases h80 : cmd = 0x8000
  · rw [if_pos h80] at h
    obtain ⟨st1, hst1, h⟩ := chainE_ok _ _ _ h
    obtain ⟨st4, hst4, h⟩ := chainE_ok _ _ _ h
    injection h with h'
    obtain ⟨hcl, hawp⟩ := dispatchStatus_ok _ _ _ _ hst1
    obtain ⟨hac, hp1, -, -⟩ := dispatchResponse_ok _ _ _ _ _ hst4
    unfold data_received
    rw [if_neg (not_not_intro hmem)]
    simp only [hstep2, hne3, if_false, chainE_okk]
    rw [if_pos h80]
    rw [chainE_congr _ _ _ (dispatchStatus_skip _ _ _ (by rw [← h']; simp [hp1, hcl]))]
    rw [chainE_congr _ _ _ (dispatchResponse_skip _ _ _ _ (by rw [← h']; simp [hac]))]
  · rw [if_neg h80] at h
    simp only [chainE_okk] at h
    obtain ⟨st4, hst4, h⟩ := chainE_ok _ _ _ h
    injection h with h'
    obtain ⟨hac, -, -, -⟩ := dispatchResponse_ok _ _ _ _ _ hst4
    unfold data_received
    rw [if_neg (not_not_intro hmem)]
    simp only [hstep2, hne3, if_false, chainE_okk]
    rw [if_neg h80]
    simp only [chainE_okk]
    rw [chainE_congr _ _ _ (dispatchResponse_skip _ _ _ _ (by rw [← h']; simp [hac]))]

/-- C4 amended: an exception from the registered unsolicited-event callback
is caught by `handle_callback` and cannot alter the dispatch result or the
waiter tables; and as long as no already-resolved future lingers in a table,
`data_received` itself never raises — the unconditional no-raise guarantee
fails only on duplicate data-sent/ack resolution (see the counterexample). -/
theorem dispatch_no_raise_guarantees :
    (∀ st cmd d l,
        allPending st.status_awaiting = true →
        allPending st.status_datasent_awaiting = true →
        allPending st.status_ack_awaiting = true →
        allPending st.awaiting = true →
        ∃ r, data_received st cmd d l = Except.ok r) ∧
    (∀ handler st cmd d l,
        data_received_app handler st cmd d l = data_received st cmd d l) := by
  constructor
  · intro st cmd d l h1 h2 h3 h4
    unfold data_received
    by_cases hmem : cmd ∉ RESPONSES
    · rw [if_pos hmem]
      exact ⟨_, rfl⟩
    · rw [if_neg hmem]
      by_cases h80 : cmd = 0x8000
      · have hn1 : ¬(cmd = 0x8012 ∨ cmd = 0x8702) := by subst h80; decide
        have hn2 : ¬(cmd = 0x8011) := by subst h80; decide
        simp only [hn1, hn2, if_false, chainE_okk]
        rw [if_pos h80]
        obtain ⟨st1, hst1⟩ := dispatchStatus_total st d l h1
        rw [chainE_congr _ _ _ hst1]
        obtain ⟨-, haw⟩ := dispatchStatus_ok _ _ _ _ hst1
        obtain ⟨st4, hst4⟩ := dispatchResponse_total st1 cmd d l (by rw [haw]; exact h4)
        rw [chainE_congr _ _ _ hst4]
        exact ⟨_, rfl⟩
      · rw [if_neg h80]
        simp only [chainE_okk]
        by_cases h12 : cmd = 0x8012 ∨ cmd = 0x8702
        · have hn2 : ¬(cmd = 0x8011) := by rcases h12 with h | h <;> subst h <;> decide
          simp only [hn2, if_false, chainE_okk]
          rw [if_pos h12]
          obtain ⟨st2, hst2⟩ := dispatchDatasent_total st d l h2
          rw [chainE_congr _ _ _ hst2]
          obtain ⟨haw, -, -⟩ := dispatchDatasent_ok _ _ _ _ hst2
          obtain ⟨st4, hst4⟩ := dispatchResponse_total st2 cmd d l (by rw [haw]; exact h4)
          rw [chainE_congr _ _ _ hst4]
          exact ⟨_, rfl⟩
        · simp only [h12, if_false, chainE_okk]
          by_cases h11 : cmd = 0x8011
          · rw [if_pos h11]
            obtain ⟨st3, hst3⟩ := dispatchAck_total st d l h3
            rw [chainE_congr _ _ _ hst3]
            obtain ⟨haw, -, -⟩ := dispatchAck_ok _ _ _ _ hst3
            obtain ⟨st4, hst4⟩ := dispatchResponse_total st3 cmd d l (by rw [haw]; exact h4)
            rw [chainE_congr _ _ _ hst4]
            exact ⟨_, rfl⟩
          · rw [if_neg h11]
            simp only [chainE_okk]
            obtain ⟨st4, hst4⟩ := dispatchResponse_total st cmd d l h4
            rw [chainE_congr _ _ _ hst4]
            exact ⟨_, rfl⟩
  · intro handler st cmd d l
    unfold data_received_app
    cases hdr : data_received st cmd d l with
    | error f => rfl
    | ok r =>
      rcases r with ⟨rst, cbargs⟩
      rcases cbargs with _ | ⟨c, dd, ll⟩ <;> rfl

theorem reconnect_till_done_get (os : List Bool) (a : Nat) (ws : List Nat)
    (h : reconnect_till_done os a = some ws) :
    ∀ i, (hi : i < ws.length) → ws.get ⟨i, hi⟩ = 2 ^ min (a + i) 5 := by
  induction os generalizing a ws with
  | nil => simp [reconnect_till_done] at h
  | cons ok rest ih =>
    cases ok
    · simp only [reconnect_till_done, if_false, Bool.false_eq_true] at h
      rcases hmap : reconnect_till_done rest (a + 1) with _ | ws'
      · rw [hmap] at h; simp at h
      · rw [hmap] at h
        simp only [Option.map_some'] at h
        injection h with h'
        subst h'
        intro i hi
        cases i with
        | zero => simp
        | succ j =>
          have hj : j < ws'.length := by simpa using hi
          have := ih (a + 1) ws' hmap j hj
          simpa [Nat.add_assoc, Nat.add_comm 1 j] using this
    · simp only [reconnect_till_done, if_true] at h
      injection h with h'
      subst h'
      intro i hi
      simp at hi

theorem reconnect_till_done_isSome (os : List Bool) (a : Nat) :
    (reconnect_till_done os a).isSome = true ↔ true ∈ os := by
  induction os generalizing a with
  | nil => simp [reconnect_till_done]
  | cons ok rest ih =>
    cases ok
    · simp [reconnect_till_done, ih (a + 1)]
    · simp [reconnect_till_done]

/-- C6: in the reconnect loop the sleep after the n-th failed attempt is
exactly `2 ^ min n 5` time units, the backoff sequence is monotonically
non-decreasing and capped at `2 ^ 5 = 32`, and the loop terminates exactly
when some reconnect attempt succeeds. -/
theorem reconnect_backoff (os : List Bool) :
    (∀ ws, reconnect_till_done os 1 = some ws →
        (∀ i, (hi : i < ws.length) → ws.get ⟨i, hi⟩ = 2 ^ min (i + 1) 5) ∧
        ws.Chain' (· ≤ ·) ∧
        (∀ w ∈ ws, w ≤ 32)) ∧
    ((reconnect_till_done os 1).isSome = true ↔ true ∈ os) := by
  constructor
  · intro ws h
    have hget := reconnect_till_done_get os 1 ws h
    refine ⟨fun i hi => by simpa [Nat.add_comm] using hget i hi, ?_, ?_⟩
    · rw [List.chain'_iff_get]
      intro i hi
      have h1 := hget i (by omega)
      have h2 := hget (i + 1) (by omega)
      rw [h1, h2]
      exact Nat.pow_le_pow_right (by norm_num) (by omega)
    · intro w hw
      obtain ⟨⟨i, hi⟩, rfl⟩ := List.mem_iff_get.mp hw
      rw [hget i hi]
      calc 2 ^ min (1 + i) 5 ≤ 2 ^ 5 :=
            Nat.pow_le_pow_right (by norm_num) (min_le_right _ _)
        _ = 32 := by norm_num
  · exact reconnect_till_done_isSome os 1

/-- C5: while the transport is absent (`self._uart is None`), `command` fails
immediately with the `CommandError("API is not running")`, sending nothing,
touching no waiter table, and releasing the serialization lock. -/
theorem command_not_running (cmdId : Nat) (wait_response : Option Nat)
    (ws wfd wfa : Bool) (oracles : List AttemptOracle) (st : CmdState)
    (h : st.uart = false) :
    command cmdId wait_response ws wfd wfa oracles st =
      ⟨Except.error CmdError.commandError, { st with lockHeld := false }⟩ := by
  simp [command, commandLoop, commandAttempt, h]

/-- C1 amended: with the hardcoded attempt budget `tries = 1`, a command with
`wait_status=true` whose status await times out is sent exactly once and the
call fails with `NoStatusError`; the retry branch is unreachable. -/
theorem command_status_timeout (cmdId : Nat) (wait_response : Option Nat)
    (wfd wfa : Bool) (o : AttemptOracle) (rest : List AttemptOracle)
    (st : CmdState) (h : st.uart = true)
    (ho : o.statusA = AwaitOutcome.timeout) :
    (command cmdId wait_response true wfd wfa (o :: rest) st).res =
        Except.error CmdError.noStatus ∧
      (command cmdId wait_response true wfd wfa (o :: rest) st).st.sends
        = st.sends + 1 := by
  cases wait_response with
  | none => simp [command, commandLoop, commandAttempt, statusStage, h, ho]
  | some r => simp [command, commandLoop, commandAttempt, statusStage, h, ho]

/-- C9: a non-zero status code short-circuits the call; the status result is
returned and the registered named-response waiter stays in `_awaiting`. -/
theorem command_badstatus_keeps_waiter (cmdId r : Nat) (wfd wfa : Bool)
    (o : AttemptOracle) (rest : List AttemptOracle) (st : CmdState)
    (ds : List Nat) (ls : Nat) (h : st.uart = true)
    (ho : o.statusA = AwaitOutcome.frame ds ls)
    (hs : pyidx ds 0 ≠ 0) :
    (command cmdId (some r) true wfd wfa (o :: rest) st).res =
        Except.ok (some (ds, ls)) ∧
      tcontains
        (command cmdId (some r) true wfd wfa (o :: rest) st).st.tables.awaiting r
        = true := by
  by_cases h3 : pyidx ds 3 = 0 <;> cases wfd <;> cases wfa <;>
    simp [command, commandLoop, commandAttempt, statusStage, statusResolveEffects,
      SUCCESS, h, ho, hs, h3, tcontains_tset_self]

/-- C7: `command` releases the serialization lock on every exit path —
normal return, `NoStatusError`/`NoResponseError`, and the "not running"
`CommandError` — given the dispatcher coupling that a data-sent confirmation
resuming the call echoes the status frame's sqn. -/
theorem command_releases_lock (cmdId : Nat) (wr : Option Nat) (ws wfd wfa : Bool)
    (oracles : List AttemptOracle) (st : CmdState)
    (hc : oracleConsistent (oracles.headD oracleTimeout)) :
    (command cmdId wr ws wfd wfa oracles st).st.lockHeld = false := by
  rw [command_unfold]
  cases hA : commandAttempt cmdId wr ws wfd wfa (oracles.headD oracleTimeout) 0
      none none { st with lockHeld := true } with
  | raised e s => exact commandAttempt_raised_lock _ _ _ _ _ _ _ _ hc _ _ hA
  | proceed r s2 q st2 => simp [commandLoop]

/-- The engine state used by the concrete scenarios: transport up, lock free,
all four waiter tables empty, no sends yet. -/
def ce_st : CmdState := ⟨true, false, ⟨[], [], [], []⟩, 0⟩

def c10_st : CmdState := ⟨true, false, ⟨[], [], [], []⟩, 0⟩
def c10_ds : List Nat := [0, 0, 0x30, 1, 7, 0]
def c10_dd : List Nat := [0, 1, 2, 3, 7]
def c10_da : List Nat := [0, 90, 0, 0, 7]
def c10_dr : List Nat := [42]

/-- A fully successful exchange: distinct status, data-sent, ack and named
response frames, all with status code 0 and the echoed sqn 7. -/
def c10_oracle : AttemptOracle :=
  ⟨AwaitOutcome.frame c10_ds 10, AwaitOutcome.frame c10_dd 20,
   AwaitOutcome.frame c10_da 30, AwaitOutcome.frame c10_dr 40⟩

/-- C10: on a fully successful call the returned `(fields, lqi)` pair is the
last stage actually awaited — response, else ack, else data-sent, else
status — and `None` when no stage is awaited at all. -/
theorem command_returns_last_stage (wr : Option Nat) (ws wfd wfa : Bool) :
    (command 0x30 wr ws wfd wfa [c10_oracle] c10_st).res =
      Except.ok (match wr, ws, wfd, wfa with
        | some _, _, _, _ => some (c10_dr, 40)
        | none, true, _, true => some (c10_da, 30)
        | none, true, true, false => some (c10_dd, 20)
        | none, true, false, false => some (c10_ds, 10)
        | none, false, _, _ => none) := by
  rcases wr with _ | r <;> cases ws <;> cases wfd <;> cases wfa <;>
    simp [command, commandLoop, commandAttempt, statusStage, datasentStage, ackStage,
      responseStage, statusResolveEffects, c10_oracle, c10_st, c10_ds, c10_dd, c10_da,
      c10_dr, SUCCESS, pyidx, tset, terase, tget, tcontains, set_result]

/-- C1 counterexample: with the default budget a status timeout produces
exactly ONE send, not the two the claim asserts, before `NoStatusError`. -/
theorem command_sent_twice_refuted :
    (command 0x0026 none true false false [oracleTimeout] ce_st).res =
        Except.error CmdError.noStatus ∧
      (command 0x0026 none true false false [oracleTimeout] ce_st).st.sends = 1 ∧
      (command 0x0026 none true false false [oracleTimeout] ce_st).st.sends ≠ 2 := by
  decide

/-- C1 witness -/
theorem command_status_timeout_witness :
    (command 0x0026 none true false false (oracleTimeout :: []) ce_st).res =
        Except.error CmdError.noStatus ∧
      (command 0x0026 none true false false (oracleTimeout :: []) ce_st).st.sends
        = ce_st.sends + 1 :=
  command_status_timeout 0x0026 none false false oracleTimeout [] ce_st rfl rfl

/-- C5 witness -/
def c5_st : CmdState := ⟨false, false, ⟨[], [], [], []⟩, 4⟩

theorem command_not_running_witness :
    command 0x0026 none true false false [] c5_st =
      ⟨Except.error CmdError.commandError, { c5_st with lockHeld := false }⟩ :=
  command_not_running 0x0026 none true false false [] c5_st rfl

/-- C7 witness -/
theorem command_releases_lock_witness :
    (command 0x30 (some 0x8102) true true true [c10_oracle] ce_st).st.lockHeld
      = false :=
  command_releases_lock 0x30 (some 0x8102) true true true [c10_oracle] ce_st rfl

/-- C9 witness -/
def c9_ds : List Nat := [0xA3, 0, 0x26, 0, 0, 0]

def c9_oracle : AttemptOracle :=
  ⟨AwaitOutcome.frame c9_ds 11, AwaitOutcome.timeout, AwaitOutcome.timeout,
   AwaitOutcome.timeout⟩

theorem command_badstatus_keeps_waiter_witness :
    (command 0x0026 (some 0x8011) true false false (c9_oracle :: []) ce_st).res =
        Except.ok (some (c9_ds, 11)) ∧
      tcontains (command 0x0026 (some 0x8011) true false false
        (c9_oracle :: []) ce_st).st.tables.awaiting 0x8011 = true :=
  command_badstatus_keeps_waiter 0x0026 0x8011 false false c9_oracle [] ce_st
    c9_ds 11 rfl rfl (by decide)

/-- C2 counterexample: an ack frame delivered twice for sqn 7 — the first
delivery resolves the waiter but leaves it in the table, so the second
delivery raises `InvalidStateError` instead of being a logged no-op. -/
def c2_frame : List Nat := [0, 0, 0, 0, 7]

theorem ack_redelivery_faults :
    data_received ⟨[], [], [], [(7, Fut.pending)]⟩ 0x8011 c2_frame 5 =
        Except.ok ⟨⟨[], [], [], [(7, Fut.resolved c2_frame 5)]⟩,
          some (0x8011, c2_frame, 5)⟩ ∧
      data_received ⟨[], [], [], [(7, Fut.resolved c2_frame 5)]⟩ 0x8011 c2_frame 5 =
        Except.error ⟨[], [], [], [(7, Fut.resolved c2_frame 5)]⟩ := by
  decide

/-- C2 witness -/
def c2w_st : DState := ⟨[(0x8010, Fut.pending)], [], [], []⟩

theorem dispatch_redelivery_noop_witness :
    data_received (⟨[], [], [], []⟩ : DState) 0x8010 [5, 261] 9 =
      Except.ok ⟨⟨[], [], [], []⟩, some (0x8010, [5, 261], 9)⟩ :=
  dispatch_redelivery_noop c2w_st 0x8010 [5, 261] 9
    ⟨⟨[], [], [], []⟩, some (0x8010, [5, 261], 9)⟩
    (by decide) (by decide) (by decide) (by decide) (by decide)

/-- C3 counterexample: a status frame with sqn present but NO status waiter
registered creates neither the data-sent nor the ack waiter. -/
def c3_frame : List Nat := [0, 0, 0x26, 1, 5, 0]

theorem status_frame_without_waiter_creates_nothing :
    data_received ⟨[], [], [], []⟩ 0x8000 c3_frame 3 =
        Except.ok ⟨⟨[], [], [], []⟩, some (0x8000, c3_frame, 3)⟩ ∧
      tcontains (⟨[], [], [], []⟩ : DState).status_datasent_awaiting 5 = false ∧
      tcontains (⟨[], [], [], []⟩ : DState).status_ack_awaiting 5 = false := by
  decide

/-- C3 witness -/
def c3w_st : DState := ⟨[], [(0x26, Fut.pending)], [], []⟩

def c3w_res : DState := ⟨[], [], [(5, Fut.pending)], [(5, Fut.pending)]⟩

theorem status_frame_creates_sqn_waiters_witness :
    tcontains c3w_res.status_datasent_awaiting 5 = true ∧
      tcontains c3w_res.status_ack_awaiting 5 = true :=
  status_frame_creates_sqn_waiters c3w_st c3_frame 3
    ⟨c3w_res, some (0x8000, c3_frame, 3)⟩
    (by decide) (by decide) (by decide)

/-- C4 counterexample: a duplicate data-sent confirmation makes dispatch
raise past the `data_received` boundary. -/
def c4_frame : List Nat := [1, 2, 3, 4, 9, 6]

theorem dispatch_raises_on_duplicate_confirm :
    data_received ⟨[], [], [(9, Fut.resolved [] 0)], []⟩ 0x8012 c4_frame 3 =
      Except.error ⟨[], [], [(9, Fut.resolved [] 0)], []⟩ := by
  decide

/-- C4 witness -/
theorem dispatch_no_raise_guarantees_witness :
    (∃ r, data_received ⟨[(0x8010, Fut.pending)], [], [], []⟩ 0x8010 [5, 261] 9 =
        Except.ok r) ∧
      data_received_app (fun _ _ _ => Except.error "application handler failed")
          ⟨[], [], [], []⟩ 0x004D [1, 2, 3, 4] 7 =
        data_received ⟨[], [], [], []⟩ 0x004D [1, 2, 3, 4] 7 :=
  ⟨dispatch_no_raise_guarantees.1 ⟨[(0x8010, Fut.pending)], [], [], []⟩ 0x8010
      [5, 261] 9 (by decide) (by decide) (by decide) (by decide),
   dispatch_no_raise_guarantees.2 (fun _ _ _ => Except.error "application handler failed")
      ⟨[], [], [], []⟩ 0x004D [1, 2, 3, 4] 7⟩

/-- C8 counterexample: a duplicate data-sent-failed confirmation (0x8702)
aborts dispatch before `handle_callback`, so the decoded frame is NOT
forwarded to the unsolicited-event callback. -/
def c8_frame : List Nat := [1, 2, 3, 4, 11, 6]

theorem callback_skipped_on_fault :
    data_received ⟨[], [], [(11, Fut.resolved [] 0)], []⟩ 0x8702 c8_frame 4 =
        Except.error ⟨[], [], [(11, Fut.resolved [] 0)], []⟩ ∧
      data_received_app (fun _ _ _ => Except.ok ())
          ⟨[], [], [(11, Fut.resolved [] 0)], []⟩ 0x8702 c8_frame 4 =
        Except.error ⟨[], [], [(11, Fut.resolved [] 0)], []⟩ := by
  decide

/-- C8 witness -/
theorem dispatch_drop_and_callback_witness :
    data_received ⟨[], [], [], []⟩ 0x1234 [1] 2 =
        Except.ok ⟨⟨[], [], [], []⟩, none⟩ ∧
      (⟨⟨[], [], [], []⟩, some (0x8035, [0, 1], 3)⟩ : DispatchResult).callbackArgs
        = some (0x8035, [0, 1], 3) :=
  ⟨dispatch_drop_and_callback.1 ⟨[], [], [], []⟩ 0x1234 [1] 2 (by decide),
   dispatch_drop_and_callback.2 ⟨[], [], [], []⟩ 0x8035 [0, 1] 3
     ⟨⟨[], [], [], []⟩, some (0x8035, [0, 1], 3)⟩ (by decide) (by decide)⟩

/-- C6 witness -/
theorem reconnect_backoff_witness :
    (([2, 4] : List Nat).Chain' (· ≤ ·) ∧ (∀ w ∈ ([2, 4] : List Nat), w ≤ 32)) ∧
      ((reconnect_till_done [false, false, true] 1).isSome = true ↔
        true ∈ [false, false, true]) :=
  ⟨⟨((reconnect_backoff [false, false, true]).1 [2, 4] (by decide)).2.1,
    ((reconnect_backoff [false, false, true]).1 [2, 4] (by decide)).2.2⟩,
   (reconnect_backoff [false, false, true]).2⟩
